import Mathlib

/-!
Shallow embedding of the casa.sapo.pt property scraper
(src/sapo_scraper.py and src/utils/utils.py) and proofs about its
field extractors, crawl loop and dataset assembly.

Python strings are modelled as Lean strings indexed by code points
(List Char), matching CPython indexing; Python exceptions are modelled
with Except String, and the try/except boundaries of the source are
explicit match expressions on those Except values.
-/

namespace PortoScraper

/-! ## Python string primitives -/

/-- Clamping of one slice index for a sequence of length n, as CPython
does for s[a:b]: a negative index counts from the end and is clamped at 0,
a nonnegative index is clamped at n. -/
def pyClampIndex (n : Nat) (i : Int) : Nat :=
  if i < 0 then ((n : Int) + i).toNat else min n i.toNat

/-- Python slice l[a:b] on a list of characters. -/
def pySliceList (l : List Char) (a b : Int) : List Char :=
  (l.take (pyClampIndex l.length b)).drop (pyClampIndex l.length a)

/-- Python slice s[a:b] on a string. -/
def pySlice (s : String) (a b : Int) : String :=
  String.mk (pySliceList s.toList a b)

def pyFindAux (c : Char) : List Char → Nat → Int
  | [], _ => -1
  | x :: xs, i => if x = c then (i : Int) else pyFindAux c xs (i + 1)

/-- Python s.find(c) for a single-character needle: the index of the first
occurrence, or -1 when c does not occur in s. -/
def pyFind (s : String) (c : Char) : Int := pyFindAux c s.toList 0

/-- Python str.isdigit restricted to the characters of this domain: the
ASCII digits together with the superscript digits (the area texts carry
the square sign), which CPython also classifies as digits. -/
def pyIsDigit (c : Char) : Bool := c.isDigit || c = '¹' || c = '²' || c = '³'

/-- Python int(c) for a one-character string satisfying isdigit: it
succeeds exactly on the ASCII digits (int of a superscript digit raises
ValueError even though isdigit holds). -/
def pyIntOfDigitCharE (c : Char) : Except String Nat :=
  if c.isDigit then .ok (c.toNat - '0'.toNat)
  else .error "ValueError: invalid literal for int"

/-- Numeric value of a string of ASCII digits, most significant first. -/
def digitsVal (l : List Char) : Nat :=
  l.foldl (fun acc c => 10 * acc + (c.toNat - '0'.toNat)) 0

/-- Python int(s) restricted to the strings this program builds at its one
call site, which are concatenations of single decimal digits: it fails on
the empty string and on any non-digit character. -/
def pyIntE (s : String) : Except String Int :=
  if s.toList = [] then .error "ValueError: invalid literal for int"
  else if s.toList.all Char.isDigit then .ok (digitsVal s.toList)
  else .error "ValueError: invalid literal for int"

/-- Python float(s) restricted to the strings this program builds at its
one call site, which are leading runs of isdigit characters: it fails on
the empty string and on superscript digits, and yields the (exactly
representable) integer value on a run of ASCII digits. -/
def pyFloatE (s : String) : Except String Nat :=
  if s.toList = [] then .error "ValueError: could not convert string to float"
  else if s.toList.all Char.isDigit then .ok (digitsVal s.toList)
  else .error "ValueError: could not convert string to float"

/-- Model of urllib.parse.urljoin restricted to the URI shapes this
program exercises: bases of the form scheme://authority[/path], and
references that are empty, absolute (contain ://), absolute-path
(start with /), or plain relative paths resolved against the directory
of the base path. -/
def urljoin (base url : String) : String :=
  let b := base.toList
  match (List.findIdx? (fun i => "://".toList.isPrefixOf (b.drop i)) (List.range b.length)) with
  | none => url
  | some i =>
    let afterScheme := b.drop (i + 3)
    let auth := afterScheme.takeWhile (fun c => c ≠ '/')
    let path := afterScheme.dropWhile (fun c => c ≠ '/')
    let sa := String.mk (b.take (i + 3) ++ auth)
    if url = "" then base
    else if (List.findIdx? (fun j => "://".toList.isPrefixOf (url.toList.drop j))
        (List.range url.toList.length)).isSome then url
    else if url.toList.headD ' ' = '/' then sa ++ url
    else
      let dir := (path.reverse.dropWhile (fun c => c ≠ '/')).reverse
      let dir := if dir = [] then ['/'] else dir
      sa ++ String.mk dir ++ url

/-! ## Data model: listing fragments and extracted records -/

/-- One HTML element inside a listing fragment: its (single) class
attribute and its visible text. -/
structure Elem where
  cls : String
  text : String
deriving DecidableEq

/-- One listing fragment (a div.searchResultProperty card): the texts of
its span elements in document order, its p and div elements with class
and text, and the href attributes of its a elements (None when the
attribute is missing). -/
structure Fragment where
  spans : List String
  ps : List Elem
  divs : List Elem
  anchors : List (Option String)
deriving DecidableEq

/-- Result of the size extractor: Python returns either a float (modelled
by its exact nonnegative integer value, the only values the digit-run
parse can produce) or a string (the placeholder, or the empty default). -/
inductive SizeVal where
  | num (n : Nat)
  | txt (s : String)
deriving DecidableEq

/-- Calendar date, as produced by the date parser. -/
structure YMD where
  year : Nat
  month : Nat
  day : Nat
deriving DecidableEq

/-- Result of the date extractor: a parsed date or the empty-string
default of the except branch. -/
inductive DateVal where
  | dt (d : YMD)
  | txt (s : String)
deriving DecidableEq

/-- Python list indexing l[i], which raises IndexError out of range. -/
def listGetE {α : Type} (l : List α) (i : Nat) : Except String α :=
  match l.get? i with
  | some x => .ok x
  | none => .error "IndexError: list index out of range"

/-- Modelled subset of pandas.to_datetime: strict ISO YYYY-MM-DD with
digit and range checks. Only its total success-or-failure boundary
matters for the claims below. -/
def pdToDatetimeE (s : String) : Except String YMD :=
  match s.toList with
  | [y1, y2, y3, y4, s1, m1, m2, s2, d1, d2] =>
    if ([y1, y2, y3, y4, m1, m2, d1, d2].all Char.isDigit) ∧ s1 = '-' ∧ s2 = '-' then
      let m := digitsVal [m1, m2]
      let d := digitsVal [d1, d2]
      if 1 ≤ m ∧ m ≤ 12 ∧ 1 ≤ d ∧ d ≤ 31 then
        .ok ⟨digitsVal [y1, y2, y3, y4], m, d⟩
      else .error "ValueError: day is out of range"
    else .error "ValueError: unknown datetime string format"
  | _ => .error "ValueError: unknown datetime string format"

/-! ## Configuration (module constants and constructor defaults) -/

def CASA_SAPO_URI : String := "https://casa.sapo.pt"

def CASA_SAPO_FILTERS : String := "/Venda/Apartamentos/Porto/?sa=13&or=10"

def N_PAGES : Nat := 1

/-- Constructor-level configuration of CasaSapoScraper. -/
structure ScraperConfig where
  BASE_URI : String
  FILTERS_URI : String
  N_PAGES : Nat
deriving DecidableEq

def defaultConfig : ScraperConfig := ⟨CASA_SAPO_URI, CASA_SAPO_FILTERS, N_PAGES⟩

/-! ## Field extractors

Each extractor is translated as a body (the content of the try block,
with Python exceptions as Except values) and a public function that
applies the except boundary, converting any internal failure into the
default for that field. -/

/-- Single conditional truncation before a / separator, as the source
writes it: if price.find of / is not -1 then price = price[0:find - 1]. -/
def truncOnce (s : String) : String :=
  if pyFind s '/' = -1 then s else pySlice s 0 (pyFind s '/' - 1)

/-- The list comprehension over the price text: int(price[s]) for every
isdigit position, evaluated left to right, raising at the first
superscript digit. -/
def priceDigitsE : List Char → Except String (List Nat)
  | [] => .ok []
  | c :: cs =>
    if pyIsDigit c then
      match pyIntOfDigitCharE c with
      | .ok d =>
        match priceDigitsE cs with
        | .ok ds => .ok (d :: ds)
        | .error e => .error e
      | .error e => .error e
    else priceDigitsE cs

def digitChar (d : Nat) : Char := Char.ofNat (d + 48)

/-- The rebuild loop over the extracted digits: price starts empty and
each digit value is appended via str. -/
def renderDigits (ds : List Nat) : String := String.mk (ds.map digitChar)

/-- Body of get_property_price: spans[2], the contact-advertiser fallback
to spans[3] with its inner truncation, the outer truncation, digit
extraction, and the final int parse. -/
def get_property_price_body (f : Fragment) : Except String Int := do
  let price0 ← listGetE f.spans 2
  let price1 ←
    if price0 = "Contacte Anunciante" then do
      let q ← listGetE f.spans 3
      pure (truncOnce q)
    else
      pure price0
  let price2 := truncOnce price1
  let ds ← priceDigitsE price2.toList
  pyIntE (renderDigits ds)

/-- Extractor get_property_price: the try body with the except boundary
returning None. -/
def get_property_price (f : Fragment) : Option Int :=
  match get_property_price_body f with
  | .ok v => some v
  | .error _ => none

/-- Body of get_property_zone: the first p element of class
searchPropertyLocation, sliced as location[7:location.find of comma]. -/
def get_property_zone_body (f : Fragment) : Except String String := do
  let e ← listGetE (f.ps.filter (fun p => p.cls = "searchPropertyLocation")) 0
  let location := e.text
  pure (pySlice location 7 (pyFind location ','))

def get_property_zone (f : Fragment) : String :=
  match get_property_zone_body f with
  | .ok v => v
  | .error _ => ""

/-- Body of get_property_title: the text of spans[0]. -/
def get_property_title_body (f : Fragment) : Except String String :=
  listGetE f.spans 0

def get_property_title (f : Fragment) : String :=
  match get_property_title_body f with
  | .ok v => v
  | .error _ => ""

/-- Body of get_property_condition: the text of the sixth p element. -/
def get_property_condition_body (f : Fragment) : Except String String := do
  let e ← listGetE f.ps 5
  pure e.text

def get_property_condition (f : Fragment) : String :=
  match get_property_condition_body f with
  | .ok v => v
  | .error _ => ""

/-- Helper preprocess_m2 of the source: remove the no-break spaces, take
the leading run of isdigit characters and parse it as a float. -/
def preprocess_m2E (result : String) : Except String Nat :=
  let m2 := String.mk (result.toList.filter (fun c => c ≠ '\xA0'))
  pyFloatE (String.mk (m2.toList.takeWhile pyIsDigit))

/-- Body of get_property_size: the tenth p element first, falling back to
the eighth when the text is the placeholder, and returning the
placeholder itself when it persists through the fallback. -/
def get_property_size_body (f : Fragment) : Except String SizeVal := do
  let e9 ← listGetE f.ps 9
  let m2 := e9.text
  if m2 ≠ "-" then
    let v ← preprocess_m2E m2
    pure (SizeVal.num v)
  else
    let e7 ← listGetE f.ps 7
    let m2b := e7.text
    if m2b ≠ "-" then
      let v ← preprocess_m2E m2b
      pure (SizeVal.num v)
    else
      pure (SizeVal.txt m2b)

def get_property_size (f : Fragment) : SizeVal :=
  match get_property_size_body f with
  | .ok v => v
  | .error _ => SizeVal.txt ""

/-- Body of get_property_date: the first div of class searchPropertyDate,
its text sliced as text[21:31], handed to the datetime parser. -/
def get_property_date_body (f : Fragment) : Except String DateVal := do
  let e ← listGetE (f.divs.filter (fun d => d.cls = "searchPropertyDate")) 0
  let d ← pdToDatetimeE (pySlice e.text 21 31)
  pure (DateVal.dt d)

def get_property_date (f : Fragment) : DateVal :=
  match get_property_date_body f with
  | .ok v => v
  | .error _ => DateVal.txt ""

/-- Body of get_property_description: the first p element of class
searchPropertyDescription, sliced as text[7:-6]. -/
def get_property_description_body (f : Fragment) : Except String String := do
  let e ← listGetE (f.ps.filter (fun p => p.cls = "searchPropertyDescription")) 0
  pure (pySlice e.text 7 (-6))

def get_property_description (f : Fragment) : String :=
  match get_property_description_body f with
  | .ok v => v
  | .error _ => ""

/-- Body of get_property_link: the href of the first a element (raising
when the attribute is missing, as subscripting None does), sliced as
href[1:-6] and resolved against the base URI. -/
def get_property_link_body (cfg : ScraperConfig) (f : Fragment) : Except String String := do
  let a ← listGetE f.anchors 0
  match a with
  | some href => pure (urljoin cfg.BASE_URI (pySlice href 1 (-6)))
  | none => .error "TypeError: NoneType is not subscriptable"

def get_property_link (cfg : ScraperConfig) (f : Fragment) : String :=
  match get_property_link_body cfg f with
  | .ok v => v
  | .error _ => ""

/-- One row of output, the tuple built by get_property_info. -/
structure Record where
  title : String
  price : Option Int
  size : SizeVal
  zone : String
  condition : String
  date : DateVal
  description : String
  link : String
deriving DecidableEq

/-- get_property_info: the eight extractors applied to one fragment. -/
def get_property_info (cfg : ScraperConfig) (f : Fragment) : Record :=
  ⟨get_property_title f, get_property_price f, get_property_size f,
   get_property_zone f, get_property_condition f, get_property_date f,
   get_property_description f, get_property_link cfg f⟩

/-! ## Crawl loop and dataset assembly -/

/-- Page URI construction of the crawl loop: the search URI with the
page-number query parameter appended, joined with an ampersand
unconditionally. -/
def pageUri (searchUri : String) (p : Nat) : String :=
  searchUri ++ "&pn=" ++ toString p

/-- The search URI composed once before the loop: the base URI joined
with the filter suffix when filters are included, the bare base URI
otherwise. -/
def searchUriOf (cfg : ScraperConfig) (include_filters : Bool) : String :=
  if include_filters then urljoin cfg.BASE_URI cfg.FILTERS_URI else cfg.BASE_URI

/-- Body of the per-page try statement: the for statement over the page
listings, appending one record per listing. A fault while processing one
listing abandons the remainder of the list, keeping the records appended
so far; the except handler then moves on to the next page. -/
def processPage (getInfo : Fragment → Except String Record) (acc : List Record) :
    List Fragment → List Record
  | [] => acc
  | f :: fs =>
    match getInfo f with
    | .ok r => processPage getInfo (acc ++ [r]) fs
    | .error _ => acc

/-- Loop state: the accumulated records and, for observability, the page
numbers and URIs requested so far in order. -/
structure CrawlState where
  results : List Record
  requested : List (Nat × String)
deriving DecidableEq

/-- The page loop of get_all_properties over the remaining page numbers.
The listingOf argument stands for get_property_listing, the external
fetch-and-parse collaborator: none models a fetch failure (parse returned
None) and some gives the located listing fragments. A falsy listing
(none, or an empty list) breaks out of the loop. -/
def crawlGo (getInfo : Fragment → Except String Record)
    (listingOf : String → Option (List Fragment)) (searchUri : String) :
    List Nat → CrawlState → CrawlState
  | [], st => st
  | p :: rest, st =>
    let uri := pageUri searchUri p
    let st1 : CrawlState := ⟨st.results, st.requested ++ [(p, uri)]⟩
    match listingOf uri with
    | none => st1
    | some [] => st1
    | some listing =>
      crawlGo getInfo listingOf searchUri rest
        ⟨processPage getInfo st1.results listing, st1.requested⟩

/-- Observable outcome of get_all_properties before the DataFrame is
built: the collected records, the requested pages, and the two numbers
printed by the final summary log line, which reports self.N_PAGES and
len(results). -/
structure CrawlTrace where
  results : List Record
  requested : List (Nat × String)
  summaryPages : Nat
  summaryRecords : Nat
deriving DecidableEq

/-- The crawl of get_all_properties, parametric in the per-listing
extraction (self.get_property_info, which Python dispatches dynamically
and whose call inside the try statement may raise). -/
def get_all_properties_trace (cfg : ScraperConfig)
    (getInfo : Fragment → Except String Record)
    (listingOf : String → Option (List Fragment)) (include_filters : Bool) :
    CrawlTrace :=
  let st := crawlGo getInfo listingOf (searchUriOf cfg include_filters)
      (List.range cfg.N_PAGES) ⟨[], []⟩
  ⟨st.results, st.requested, cfg.N_PAGES, st.results.length⟩

/-- The crawl with the per-listing extraction instantiated to the actual
get_property_info of the source. -/
def get_all_properties_run (cfg : ScraperConfig)
    (listingOf : String → Option (List Fragment)) (include_filters : Bool) :
    CrawlTrace :=
  get_all_properties_trace cfg (fun f => .ok (get_property_info cfg f))
    listingOf include_filters

/-- The tabular container built by create_dataframe in utils.py: the
eight named columns in their fixed order. -/
structure DataFrame where
  title : List String
  price : List (Option Int)
  size : List SizeVal
  zone : List String
  status : List String
  date : List DateVal
  description : List String
  uri : List String
deriving DecidableEq

/-- create_dataframe of utils.py: eight positional column lists. -/
def create_dataframe (titles : List String) (prices : List (Option Int))
    (sizes : List SizeVal) (zones : List String) (conditions : List String)
    (dates : List DateVal) (descriptions : List String) (links : List String) :
    DataFrame :=
  ⟨titles, prices, sizes, zones, conditions, dates, descriptions, links⟩

/-- The call create_dataframe(*list(zip(*results))): star-unpacking the
transpose of the collected 8-tuples. With a nonempty result list zip
yields exactly eight columns, one per field; with an empty list zip
yields no arguments at all and CPython raises TypeError for the eight
missing required positional parameters. -/
def create_dataframe_call (results : List Record) : Except String DataFrame :=
  match results with
  | [] => .error "TypeError: create_dataframe missing 8 required positional arguments"
  | _ :: _ =>
    .ok (create_dataframe (results.map Record.title) (results.map Record.price)
      (results.map Record.size) (results.map Record.zone)
      (results.map Record.condition) (results.map Record.date)
      (results.map Record.description) (results.map Record.link))

/-- get_all_properties end to end: the crawl followed by the DataFrame
construction over the collected records. -/
def get_all_properties (cfg : ScraperConfig)
    (listingOf : String → Option (List Fragment)) (include_filters : Bool) :
    Except String DataFrame :=
  create_dataframe_call (get_all_properties_run cfg listingOf include_filters).results

/-! ## Concrete fixtures for the theorems below -/

/-- Oracle for a run in which every page fetch fails. -/
def oracleNone : String → Option (List Fragment) := fun _ => none

/-- A well-behaved listing fragment carrying only a title span. -/
def fragTitle : Fragment := ⟨["T2 Apartment"], [], [], []⟩

/-- A bare fragment, used as the marker of the listing whose composite
extraction faults. -/
def fragBare : Fragment := ⟨[], [], [], []⟩

/-- Per-listing extraction that raises an unanticipated fault on the bare
fragment and behaves as the source on every other fragment. -/
def getInfoFault (f : Fragment) : Except String Record :=
  if f = fragBare then .error "AttributeError" else .ok (get_property_info defaultConfig f)

/-- Oracle serving one page whose listings are a faulting fragment
followed by a well-behaved one. -/
def oracleFaultPage : String → Option (List Fragment) := fun uri =>
  if uri = pageUri (searchUriOf defaultConfig true) 0 then some [fragBare, fragTitle]
  else none

def fragPrice100 : Fragment := ⟨["t", "l", "100/mês", "x"], [], [], []⟩

def fragPrice250 : Fragment := ⟨["t", "l", "250 000€/mês", "x"], [], [], []⟩

def fragPrice9500 : Fragment := ⟨["t", "l", "9 500€/mês", "x"], [], [], []⟩

def fragContact : Fragment := ⟨["a", "b", "Contacte Anunciante", "Sob consulta"], [], [], []⟩

def blankElem : Elem := ⟨"", "x"⟩

def fragSizePrimary : Fragment :=
  ⟨[], [blankElem, blankElem, blankElem, blankElem, blankElem, blankElem, blankElem,
    blankElem, blankElem, ⟨"", "120\xA0m²"⟩], [], []⟩

def fragSizeFallback : Fragment :=
  ⟨[], [blankElem, blankElem, blankElem, blankElem, blankElem, blankElem, blankElem,
    ⟨"", "120\xA0m²"⟩, blankElem, ⟨"", "-"⟩], [], []⟩

def fragSizeAbsent : Fragment :=
  ⟨[], [blankElem, blankElem, blankElem, blankElem, blankElem, blankElem, blankElem,
    ⟨"", "-"⟩, blankElem, ⟨"", "-"⟩], [], []⟩

def fragZonePorto : Fragment :=
  ⟨[], [⟨"searchPropertyLocation", "Zone: Porto, Portugal"⟩], [], []⟩

def fragZoneNoComma : Fragment :=
  ⟨[], [⟨"searchPropertyLocation", "Zone: Porto Portugal"⟩], [], []⟩

def fragZoneFoz : Fragment :=
  ⟨[], [⟨"searchPropertyLocation", "Local: Foz, Porto"⟩], [], []⟩

def fragZoneFozNoComma : Fragment :=
  ⟨[], [⟨"searchPropertyLocation", "Local: Foz do Douro"⟩], [], []⟩

def cfgPages2 : ScraperConfig := ⟨CASA_SAPO_URI, CASA_SAPO_FILTERS, 2⟩

def cfgPages3 : ScraperConfig := ⟨CASA_SAPO_URI, CASA_SAPO_FILTERS, 3⟩

/-- Listing contents per page for the two-page termination witness. -/
def listingAtPage : Nat → List Fragment := fun j => if j = 0 then [fragTitle] else []

/-- Oracle for the termination witness: page 0 succeeds with one listing,
every later page fails to fetch. -/
def oracleFailAfterFirst : String → Option (List Fragment) := fun uri =>
  if uri = pageUri (searchUriOf cfgPages2 true) 0 then some [fragTitle] else none

/-! ## Helper lemmas -/

theorem processPage_ok (g : Fragment → Record) (acc : List Record) (l : List Fragment) :
    processPage (fun f => .ok (g f)) acc l = acc ++ l.map g := by
  induction l generalizing acc with
  | nil => simp [processPage]
  | cons f fs ih => simp [processPage, ih]

theorem processPage_error (getInfo : Fragment → Except String Record)
    (bad : Fragment) (e : String) (hbad : getInfo bad = .error e)
    (acc : List Record) (pre post : List Fragment) :
    processPage getInfo acc (pre ++ bad :: post) = processPage getInfo acc pre := by
  induction pre generalizing acc with
  | nil => simp [processPage, hbad]
  | cons f fs ih =>
    simp only [List.cons_append, processPage]
    cases getInfo f with
    | ok r => exact ih _
    | error e2 => rfl

theorem crawlGo_cons_ok (getInfo : Fragment → Except String Record)
    (listingOf : String → Option (List Fragment)) (u : String) (p : Nat)
    (rest : List Nat) (st : CrawlState) (L : List Fragment)
    (hL : listingOf (pageUri u p) = some L) (hne : L ≠ []) :
    crawlGo getInfo listingOf u (p :: rest) st =
      crawlGo getInfo listingOf u rest
        ⟨processPage getInfo st.results L, st.requested ++ [(p, pageUri u p)]⟩ := by
  cases L with
  | nil => exact absurd rfl hne
  | cons f fs => simp [crawlGo, hL]

theorem crawlGo_cons_stop (getInfo : Fragment → Except String Record)
    (listingOf : String → Option (List Fragment)) (u : String) (p : Nat)
    (rest : List Nat) (st : CrawlState)
    (hfail : listingOf (pageUri u p) = none ∨ listingOf (pageUri u p) = some []) :
    crawlGo getInfo listingOf u (p :: rest) st =
      ⟨st.results, st.requested ++ [(p, pageUri u p)]⟩ := by
  rcases hfail with h | h <;> simp [crawlGo, h]

theorem crawlGo_prefix (getInfo : Fragment → Except String Record)
    (listingOf : String → Option (List Fragment)) (u : String)
    (L : Nat → List Fragment) (l₁ l₂ : List Nat) (st : CrawlState)
    (hok : ∀ j ∈ l₁, listingOf (pageUri u j) = some (L j) ∧ L j ≠ []) :
    crawlGo getInfo listingOf u (l₁ ++ l₂) st =
      crawlGo getInfo listingOf u l₂
        ⟨l₁.foldl (fun acc j => processPage getInfo acc (L j)) st.results,
         st.requested ++ l₁.map (fun j => (j, pageUri u j))⟩ := by
  induction l₁ generalizing st with
  | nil => simp
  | cons p ps ih =>
    obtain ⟨h1, h2⟩ := hok p (List.mem_cons_self p ps)
    rw [List.cons_append, crawlGo_cons_ok getInfo listingOf u p (ps ++ l₂) st _ h1 h2,
      ih _ (fun j hj => hok j (List.mem_cons_of_mem p hj))]
    simp

theorem crawlGo_requested_mem (getInfo : Fragment → Except String Record)
    (listingOf : String → Option (List Fragment)) (u : String) (pages : List Nat)
    (st : CrawlState) (p : Nat) (v : String)
    (hmem : (p, v) ∈ (crawlGo getInfo listingOf u pages st).requested) :
    (p, v) ∈ st.requested ∨ v = pageUri u p := by
  induction pages generalizing st with
  | nil => exact Or.inl hmem
  | cons q qs ih =>
    have hsplit : ∀ st2 : CrawlState,
        (p, v) ∈ st2.requested ++ [(q, pageUri u q)] →
        (p, v) ∈ st2.requested ∨ v = pageUri u p := by
      intro st2 h2
      rcases List.mem_append.mp h2 with h3 | h3
      · exact Or.inl h3
      · have h4 := List.mem_singleton.mp h3
        injection h4 with hp hv
        exact Or.inr (by rw [hv, hp])
    cases hq : listingOf (pageUri u q) with
    | none =>
      rw [crawlGo_cons_stop getInfo listingOf u q qs st (Or.inl hq)] at hmem
      exact hsplit st hmem
    | some L =>
      cases L with
      | nil =>
        rw [crawlGo_cons_stop getInfo listingOf u q qs st (Or.inr hq)] at hmem
        exact hsplit st hmem
      | cons f fs =>
        rw [crawlGo_cons_ok getInfo listingOf u q qs st (f :: fs) hq (by simp)] at hmem
        rcases ih _ hmem with h3 | h3
        · exact hsplit st h3
        · exact Or.inr h3

theorem char_isDigit_bounds (c : Char) (h : c.isDigit = true) :
    48 ≤ c.toNat ∧ c.toNat ≤ 57 := by
  simp only [Char.isDigit, ge_iff_le, Bool.and_eq_true, decide_eq_true_eq] at h
  obtain ⟨h1, h2⟩ := h
  rw [UInt32.le_def, BitVec.le_def] at h1 h2
  exact ⟨h1, h2⟩

theorem char_ofNat_toNat (c : Char) (h48 : 48 ≤ c.toNat) (h57 : c.toNat ≤ 57) :
    Char.ofNat c.toNat = c := by
  have hval : (c.toNat).isValidChar := Or.inl (by omega)
  apply Char.ext
  unfold Char.ofNat
  rw [dif_pos hval]
  apply UInt32.ext
  exact BitVec.toNat_ofNatLt c.val.toNat _

theorem digitChar_digit (c : Char) (h : c.isDigit = true) :
    digitChar (c.toNat - 48) = c := by
  obtain ⟨h48, h57⟩ := char_isDigit_bounds c h
  have heq : c.toNat - 48 + 48 = c.toNat := by omega
  unfold digitChar
  rw [heq]
  exact char_ofNat_toNat c h48 h57

theorem priceDigitsE_clean (l : List Char) (hsup : ∀ c ∈ l, pyIsDigit c = c.isDigit) :
    priceDigitsE l = .ok ((l.filter Char.isDigit).map (fun c => c.toNat - 48)) := by
  induction l with
  | nil => rfl
  | cons c cs ih =>
    have hc := hsup c (List.mem_cons_self c cs)
    have ih2 := ih (fun d hd => hsup d (List.mem_cons_of_mem c hd))
    by_cases h : c.isDigit = true
    · simp [priceDigitsE, hc, h, pyIntOfDigitCharE, ih2, List.filter_cons]
    · simp [priceDigitsE, hc, h, ih2, List.filter_cons,
        Bool.not_eq_true _ ▸ (Bool.eq_false_iff.mpr h)]

theorem renderDigits_map (l : List Char) (hd : ∀ c ∈ l, c.isDigit = true) :
    renderDigits (l.map (fun c => c.toNat - 48)) = String.mk l := by
  unfold renderDigits
  congr 1
  rw [List.map_map]
  have h2 : ∀ c ∈ l, (digitChar ∘ fun c => c.toNat - 48) c = id c :=
    fun c hc => digitChar_digit c (hd c hc)
  rw [List.map_congr_left h2, List.map_id]

theorem pyIntE_digits (l : List Char) (hne : l ≠ []) (hd : ∀ c ∈ l, c.isDigit = true) :
    pyIntE (String.mk l) = .ok ((digitsVal l : Nat) : Int) := by
  have h1 : (String.mk l).toList = l := rfl
  unfold pyIntE
  rw [h1, if_neg hne, if_pos (List.all_eq_true.mpr hd)]

theorem take_min_length (l : List Char) (k : Nat) : l.take (min l.length k) = l.take k := by
  rcases le_total l.length k with h | h
  · rw [min_eq_left h, List.take_of_length_le h, List.take_length]
  · rw [min_eq_right h]

theorem truncOnce_eq_take (s : String) (i : Nat) (hfind : pyFind s '/' = (i : Int))
    (hi : 1 ≤ i) : truncOnce s = String.mk (s.toList.take (i - 1)) := by
  unfold truncOnce
  rw [hfind, if_neg (by omega)]
  unfold pySlice pySliceList pyClampIndex
  congr 1
  have ha : (if (0 : Int) < 0 then (((s.toList.length : Int) + 0).toNat)
      else min s.toList.length (0 : Int).toNat) = 0 := by
    rw [if_neg (by omega)]
    simp
  have hb : (if ((i : Int) - 1) < 0 then (((s.toList.length : Int) + ((i : Int) - 1)).toNat)
      else min s.toList.length ((i : Int) - 1).toNat) = min s.toList.length (i - 1) := by
    rw [if_neg (by omega)]
    congr 1
    omega
  rw [ha, hb, take_min_length, List.drop_zero]

theorem pyFindAux_lt (c : Char) (l : List Char) (n i : Nat)
    (h : pyFindAux c l n = (i : Int)) : i < n + l.length := by
  induction l generalizing n with
  | nil =>
    rw [pyFindAux] at h
    omega
  | cons x xs ih =>
    rw [pyFindAux] at h
    by_cases hx : x = c
    · rw [if_pos hx] at h
      have : n = i := by omega
      simp only [List.length_cons]
      omega
    · rw [if_neg hx] at h
      have := ih (n + 1) h
      simp only [List.length_cons]
      omega

theorem pyFind_lt (s : String) (c : Char) (i : Nat) (h : pyFind s c = (i : Int)) :
    i < s.toList.length := by
  have := pyFindAux_lt c s.toList 0 i h
  omega

theorem pySlice_seven_find (t : String) (i : Nat) (hi : i < t.toList.length) :
    pySlice t 7 (i : Int) = String.mk ((t.toList.take i).drop 7) := by
  unfold pySlice pySliceList pyClampIndex
  congr 1
  have ha : (if (7 : Int) < 0 then (((t.toList.length : Int) + 7).toNat)
      else min t.toList.length (7 : Int).toNat) = min t.toList.length 7 := by
    rw [if_neg (by omega)]
    rfl
  have hb : (if (i : Int) < 0 then (((t.toList.length : Int) + i).toNat)
      else min t.toList.length (i : Int).toNat) = i := by
    rw [if_neg (by omega)]
    simp only [Int.toNat_ofNat]
    omega
  rw [ha, hb]
  rcases le_total 7 t.toList.length with h7 | h7
  · rw [min_eq_right h7]
  · rw [min_eq_left h7]
    rw [List.drop_eq_nil_of_le, List.drop_eq_nil_of_le]
    · rw [List.length_take]
      omega
    · rw [List.length_take]
      omega

theorem pySlice_seven_neg_one (t : String) :
    pySlice t 7 (-1) = String.mk ((t.toList.dropLast).drop 7) := by
  unfold pySlice pySliceList pyClampIndex
  congr 1
  have hb : (if (-1 : Int) < 0 then (((t.toList.length : Int) + (-1)).toNat)
      else min t.toList.length (-1 : Int).toNat) = t.toList.length - 1 := by
    rw [if_pos (by omega)]
    omega
  have ha : (if (7 : Int) < 0 then (((t.toList.length : Int) + 7).toNat)
      else min t.toList.length (7 : Int).toNat) = min t.toList.length 7 := by
    rw [if_neg (by omega)]
    rfl
  rw [ha, hb, List.dropLast_eq_take]
  rcases le_total 7 t.toList.length with h7 | h7
  · rw [min_eq_right h7]
  · rw [min_eq_left h7]
    rw [List.drop_eq_nil_of_le, List.drop_eq_nil_of_le]
    · rw [List.length_take]
      omega
    · rw [List.length_take]
      omega

theorem mem_pySlice (s : String) (a b : Int) (c : Char)
    (h : c ∈ (pySlice s a b).toList) : c ∈ s.toList := by
  have h2 : (pySlice s a b).toList = pySliceList s.toList a b := rfl
  rw [h2] at h
  unfold pySliceList at h
  exact List.mem_of_mem_take (List.mem_of_mem_drop h)

theorem mem_truncOnce (s : String) (c : Char) (h : c ∈ (truncOnce s).toList) :
    c ∈ s.toList := by
  unfold truncOnce at h
  split at h
  · exact h
  · exact mem_pySlice s 0 _ c h

theorem string_toList_mk (l : List Char) : (String.mk l).toList = l := rfl

theorem priceDigitsE_nodigits (l : List Char) (h : ∀ c ∈ l, pyIsDigit c = false) :
    priceDigitsE l = .ok [] := by
  induction l with
  | nil => rfl
  | cons c cs ih =>
    rw [priceDigitsE, if_neg]
    · exact ih (fun d hd => h d (List.mem_cons_of_mem c hd))
    · rw [h c (List.mem_cons_self c cs)]
      exact Bool.false_ne_true

/-! ## Claims -/

/-- Claim C1 (code bug): the spec says get_all_properties never raises
and returns whatever records were collected, even for a run in which the
very first page fetch fails and zero records were collected. The code,
however, star-unpacks the transpose of the empty result list into the
eight-parameter create_dataframe, which raises TypeError. This theorem
evaluates the crawl at exactly that failing input: the default
configuration with a failing first fetch. -/
theorem c1_empty_run_raises_typeerror :
    get_all_properties defaultConfig oracleNone true =
      .error "TypeError: create_dataframe missing 8 required positional arguments" := by
  rfl

/-- Claim C9 (counterexample): with three configured pages and a failing
first fetch only one page is ever requested, yet the summary line
reports the configured three pages. The summary therefore does not
report the number of pages actually visited. -/
theorem c9_counterexample :
    (get_all_properties_run cfgPages3 oracleNone true).summaryPages = 3 ∧
    (get_all_properties_run cfgPages3 oracleNone true).requested.length = 1 ∧
    (3 : Nat) ≠ 1 := by
  exact ⟨rfl, rfl, by decide⟩

/-- Claim C9 (amended): when the crawl loop terminates, the emitted
summary reports the configured total page count self.N_PAGES — not the
number of pages actually visited — together with the number of records
collected. -/
theorem c9_amended_summary (cfg : ScraperConfig)
    (getInfo : Fragment → Except String Record)
    (listingOf : String → Option (List Fragment)) (include_filters : Bool) :
    (get_all_properties_trace cfg getInfo listingOf include_filters).summaryPages =
      cfg.N_PAGES ∧
    (get_all_properties_trace cfg getInfo listingOf include_filters).summaryRecords =
      (get_all_properties_trace cfg getInfo listingOf include_filters).results.length := by
  exact ⟨rfl, rfl⟩

/-- Claim C10: every requested page URI is the search URI (the urljoin of
the base URI and the filter suffix when filters are included, the bare
base URI otherwise) with the literal ampersand, pn and the decimal page
number appended; the ampersand join is unconditional, as the filterless
default search URI contains no question mark yet still gets the
ampersand-joined parameter. -/
theorem c10_page_uri (cfg : ScraperConfig) (getInfo : Fragment → Except String Record)
    (listingOf : String → Option (List Fragment)) (include_filters : Bool)
    (p : Nat) (v : String)
    (hmem : (p, v) ∈
      (get_all_properties_trace cfg getInfo listingOf include_filters).requested) :
    v = searchUriOf cfg include_filters ++ "&pn=" ++ toString p ∧
    (searchUriOf defaultConfig false).toList.all (fun c => c ≠ '?') = true ∧
    pageUri (searchUriOf defaultConfig false) 0 = "https://casa.sapo.pt&pn=0" := by
  refine ⟨?_, by decide, by decide⟩
  have h := crawlGo_requested_mem getInfo listingOf (searchUriOf cfg include_filters)
    (List.range cfg.N_PAGES) ⟨[], []⟩ p v hmem
  rcases h with h | h
  · simp at h
  · exact h

/-- Claim C10 witness: the theorem applied to page 0 of a concrete
default-configuration run. -/
theorem c10_page_uri_witness :
    "https://casa.sapo.pt/Venda/Apartamentos/Porto/?sa=13&or=10&pn=0" =
      searchUriOf defaultConfig true ++ "&pn=" ++ toString 0 ∧
    (searchUriOf defaultConfig false).toList.all (fun c => c ≠ '?') = true := by
  have h := c10_page_uri defaultConfig (fun f => .ok (get_property_info defaultConfig f))
    oracleNone true 0 "https://casa.sapo.pt/Venda/Apartamentos/Porto/?sa=13&or=10&pn=0"
    (by decide)
  exact ⟨h.1, h.2.1⟩

/-- Claim C2 (counterexample): the per-listing try statement wraps the
whole for loop over the listings of a page, so a fault on the first
listing abandons the second listing too. On a page whose listings are a
faulting fragment followed by a well-behaved one, the run collects no
records at all, although the second listing is extractable on its own —
contradicting the claim that only the faulting listing is skipped while
the remaining listings of the page are still extracted. -/
theorem c2_counterexample :
    (get_all_properties_trace defaultConfig getInfoFault oracleFaultPage true).results
      = [] ∧
    getInfoFault fragTitle = .ok (get_property_info defaultConfig fragTitle) ∧
    getInfoFault fragBare = .error "AttributeError" := by
  refine ⟨rfl, ?_, rfl⟩
  unfold getInfoFault
  rw [if_neg (by decide)]

/-- Claim C2 (amended): if the extraction of an individual listing raises
an unanticipated fault, the loop logs the fault and abandons the
remainder of that page — keeping the records of the listings processed
before the fault — and then continues with the next page; the fault
aborts the rest of the page but not the crawl. -/
theorem c2_amended_fault_aborts_rest_of_page
    (getInfo : Fragment → Except String Record)
    (listingOf : String → Option (List Fragment)) (u : String) (p : Nat)
    (rest : List Nat) (st : CrawlState) (pre post : List Fragment)
    (bad : Fragment) (e : String) (hbad : getInfo bad = .error e)
    (hpage : listingOf (pageUri u p) = some (pre ++ bad :: post)) :
    crawlGo getInfo listingOf u (p :: rest) st =
      crawlGo getInfo listingOf u rest
        ⟨processPage getInfo st.results pre, st.requested ++ [(p, pageUri u p)]⟩ := by
  rw [crawlGo_cons_ok getInfo listingOf u p rest st _ hpage (by simp),
    processPage_error getInfo bad e hbad]

/-- Claim C2 amended witness: the theorem applied to the concrete
faulting page served by oracleFaultPage. -/
theorem c2_amended_witness :
    crawlGo getInfoFault oracleFaultPage (searchUriOf defaultConfig true) [0] ⟨[], []⟩ =
      crawlGo getInfoFault oracleFaultPage (searchUriOf defaultConfig true) []
        ⟨processPage getInfoFault [] [],
         [(0, pageUri (searchUriOf defaultConfig true) 0)]⟩ := by
  exact c2_amended_fault_aborts_rest_of_page getInfoFault oracleFaultPage
    (searchUriOf defaultConfig true) 0 [] ⟨[], []⟩ [] [fragTitle] fragBare
    "AttributeError" rfl (by decide)

/-- Claim C6: if page k is the first page whose fetch fails or whose
successful fetch yields an empty listing set, the crawl stops there: the
collected records are exactly those extracted from pages 0..k-1, and the
requested pages are exactly 0..k — no page numbered above k is ever
requested. -/
theorem c6_crawl_stops (cfg : ScraperConfig)
    (listingOf : String → Option (List Fragment)) (include_filters : Bool)
    (k : Nat) (L : Nat → List Fragment) (hk : k < cfg.N_PAGES)
    (hok : ∀ j, j < k →
      listingOf (pageUri (searchUriOf cfg include_filters) j) = some (L j) ∧ L j ≠ [])
    (hfail : listingOf (pageUri (searchUriOf cfg include_filters) k) = none ∨
      listingOf (pageUri (searchUriOf cfg include_filters) k) = some []) :
    (get_all_properties_run cfg listingOf include_filters).results =
      (List.range k).foldl
        (fun acc j => acc ++ (L j).map (get_property_info cfg)) [] ∧
    (get_all_properties_run cfg listingOf include_filters).requested.map Prod.fst =
      List.range (k + 1) := by
  have h1 : cfg.N_PAGES = (k + 1) + (cfg.N_PAGES - (k + 1)) := by omega
  have hdecomp : List.range cfg.N_PAGES =
      List.range k ++ k :: (List.range (cfg.N_PAGES - (k + 1))).map (fun j => k + 1 + j) := by
    conv_lhs => rw [h1]
    rw [List.range_add, List.range_succ, List.append_assoc, List.singleton_append]
  have hst : get_all_properties_run cfg listingOf include_filters =
      ⟨(crawlGo (fun f => .ok (get_property_info cfg f)) listingOf
          (searchUriOf cfg include_filters) (List.range cfg.N_PAGES) ⟨[], []⟩).results,
       (crawlGo (fun f => .ok (get_property_info cfg f)) listingOf
          (searchUriOf cfg include_filters) (List.range cfg.N_PAGES) ⟨[], []⟩).requested,
       cfg.N_PAGES,
       (crawlGo (fun f => .ok (get_property_info cfg f)) listingOf
          (searchUriOf cfg include_filters) (List.range cfg.N_PAGES) ⟨[], []⟩).results.length⟩ :=
    rfl
  rw [hst, hdecomp,
    crawlGo_prefix (fun f => .ok (get_property_info cfg f)) listingOf
      (searchUriOf cfg include_filters) L (List.range k) _ ⟨[], []⟩
      (fun j hj => hok j (List.mem_range.mp hj)),
    crawlGo_cons_stop _ _ _ _ _ _ hfail]
  have hfold : ∀ (l : List Nat) (a : List Record),
      l.foldl (fun acc j => processPage (fun f => .ok (get_property_info cfg f)) acc (L j)) a =
      l.foldl (fun acc j => acc ++ (L j).map (get_property_info cfg)) a := by
    intro l
    induction l with
    | nil => intro a; rfl
    | cons x xs ih =>
      intro a
      rw [List.foldl_cons, List.foldl_cons, processPage_ok, ih]
  constructor
  · exact hfold (List.range k) []
  · rw [List.range_succ]
    simp only [List.nil_append, List.map_append, List.map_map, List.map_cons,
      List.map_nil]
    have hid : ∀ j ∈ List.range k,
        (Prod.fst ∘ fun j => (j, pageUri (searchUriOf cfg include_filters) j)) j =
          id j := fun j _ => rfl
    rw [List.map_congr_left hid, List.map_id]

/-- Claim C6 witness: a two-page configuration where page 0 serves one
listing and the fetch of page 1 fails; the crawl collects exactly the
record of that listing and requests exactly pages 0 and 1. -/
theorem c6_crawl_stops_witness :
    (get_all_properties_run cfgPages2 oracleFailAfterFirst true).results =
      [get_property_info cfgPages2 fragTitle] ∧
    (get_all_properties_run cfgPages2 oracleFailAfterFirst true).requested.map
      Prod.fst = [0, 1] := by
  have h := c6_crawl_stops cfgPages2 oracleFailAfterFirst true 1 listingAtPage
    (by decide)
    (fun j hj => by
      have hj0 : j = 0 := by omega
      subst hj0
      exact ⟨by decide, by decide⟩)
    (Or.inl (by decide))
  refine ⟨?_, ?_⟩
  · rw [h.1]
    rfl
  · rw [h.2]
    rfl

/-- Claim C3 (counterexample): the claim says the text is truncated
immediately before the first slash, which for a price text of 100 per
month would keep all three digits and yield 100; the code truncates at
one character before the slash and yields 10 instead. -/
theorem c3_counterexample :
    get_property_price fragPrice100 = some 10 ∧ (10 : Int) ≠ 100 := by
  exact ⟨rfl, by decide⟩

/-- Claim C3 (amended): for a well-formed price text containing a slash,
the code truncates starting at one character BEFORE the first slash —
the character immediately preceding the separator is removed along with
it — then strips all non-digit characters, concatenates the surviving
digits in original order and parses them as an integer. The example of
the claim plays out as stated because the removed character is the euro
sign: the text 250 000 euro per month still yields 250000. -/
theorem c3_amended_price_truncation (f : Fragment) (s : String) (i : Nat)
    (hs : f.spans.get? 2 = some s) (hnc : s ≠ "Contacte Anunciante")
    (hfind : pyFind s '/' = (i : Int)) (hi : 1 ≤ i)
    (hsup : ∀ c ∈ s.toList, pyIsDigit c = c.isDigit)
    (hne : (s.toList.take (i - 1)).filter Char.isDigit ≠ []) :
    get_property_price f =
      some ((digitsVal ((s.toList.take (i - 1)).filter Char.isDigit) : Nat) : Int) ∧
    get_property_price fragPrice250 = some 250000 := by
  refine ⟨?_, rfl⟩
  have ha : listGetE f.spans 2 = .ok s := by
    unfold listGetE
    rw [hs]
  have htr : truncOnce s = String.mk (s.toList.take (i - 1)) :=
    truncOnce_eq_take s i hfind hi
  have hsup2 : ∀ c ∈ (String.mk (s.toList.take (i - 1))).toList,
      pyIsDigit c = c.isDigit := by
    intro c hc
    rw [string_toList_mk] at hc
    exact hsup c (List.mem_of_mem_take hc)
  have hdig := priceDigitsE_clean ((String.mk (s.toList.take (i - 1))).toList) hsup2
  rw [string_toList_mk] at hdig
  have hrd := renderDigits_map ((s.toList.take (i - 1)).filter Char.isDigit)
    (fun c hc => List.of_mem_filter hc)
  have hint := pyIntE_digits ((s.toList.take (i - 1)).filter Char.isDigit) hne
    (fun c hc => List.of_mem_filter hc)
  have htr2 : truncOnce s = String.mk (s.data.take (i - 1)) := htr
  have hdig2 : priceDigitsE (s.data.take (i - 1)) =
      Except.ok (((s.data.take (i - 1)).filter Char.isDigit).map
        (fun c => c.toNat - 48)) := hdig
  have hrd2 : renderDigits (((s.data.take (i - 1)).filter Char.isDigit).map
      (fun c => c.toNat - 48)) =
      String.mk ((s.data.take (i - 1)).filter Char.isDigit) := hrd
  have hint2 : pyIntE (String.mk ((s.data.take (i - 1)).filter Char.isDigit)) =
      Except.ok ((digitsVal ((s.data.take (i - 1)).filter Char.isDigit) : Nat) : Int) :=
    hint
  unfold get_property_price get_property_price_body
  simp [ha, hnc, htr2, hdig2, hrd2, hint2, Except.bind, bind, pure, Except.pure]

/-- Claim C3 amended witness: the theorem applied to a concrete monthly
price text whose character before the slash is the euro sign, along with
the example text of the claim. -/
theorem c3_amended_witness :
    get_property_price fragPrice9500 = some 9500 ∧
    get_property_price fragPrice250 = some 250000 := by
  have h := c3_amended_price_truncation fragPrice9500 "9 500€/mês" 6 rfl (by decide)
    (by decide) (by decide) (by decide) (by decide)
  exact ⟨h.1.trans (by decide), h.2⟩

/-- Claim C4: the size extractor reads the paragraph element at position
9 and, when its text is the placeholder dash, falls back to the element
at position 7; a non-placeholder text of 120 followed by a no-break
space and the square-metre unit parses to the value 120; and when the
placeholder persists through the fallback no numeric size is produced —
the extractor returns the placeholder text itself, the absent arm of the
number-or-absent size field. -/
theorem c4_size_fallback (f : Fragment) :
    ((f.ps.get? 9).map Elem.text = some "120\xA0m²" →
      get_property_size f = SizeVal.num 120) ∧
    (∀ e9 e7, f.ps.get? 9 = some e9 → e9.text = "-" → f.ps.get? 7 = some e7 →
      e7.text = "120\xA0m²" → get_property_size f = SizeVal.num 120) ∧
    (∀ e9 e7, f.ps.get? 9 = some e9 → e9.text = "-" → f.ps.get? 7 = some e7 →
      e7.text = "-" →
      get_property_size f = SizeVal.txt "-" ∧
        ∀ n, get_property_size f ≠ SizeVal.num n) := by
  have hpre : preprocess_m2E "120\xA0m²" = .ok 120 := rfl
  refine ⟨?_, ?_, ?_⟩
  · intro h
    rcases Option.map_eq_some'.mp h with ⟨e9, h9, ht⟩
    have ha : listGetE f.ps 9 = .ok e9 := by
      unfold listGetE
      rw [h9]
    unfold get_property_size get_property_size_body
    simp [ha, ht, hpre, Except.bind, bind, pure, Except.pure]
  · intro e9 e7 h9 ht9 h7 ht7
    have ha : listGetE f.ps 9 = .ok e9 := by
      unfold listGetE
      rw [h9]
    have hb : listGetE f.ps 7 = .ok e7 := by
      unfold listGetE
      rw [h7]
    unfold get_property_size get_property_size_body
    simp [ha, hb, ht9, ht7, hpre, Except.bind, bind, pure, Except.pure]
  · intro e9 e7 h9 ht9 h7 ht7
    have ha : listGetE f.ps 9 = .ok e9 := by
      unfold listGetE
      rw [h9]
    have hb : listGetE f.ps 7 = .ok e7 := by
      unfold listGetE
      rw [h7]
    have hmain : get_property_size f = SizeVal.txt "-" := by
      unfold get_property_size get_property_size_body
      simp [ha, hb, ht9, ht7, Except.bind, bind, pure, Except.pure]
    exact ⟨hmain, fun n h => by rw [hmain] at h; exact SizeVal.noConfusion h⟩

/-- Claim C4 witness: the theorem applied to three concrete fragments —
primary slot populated, primary placeholder with populated fallback, and
placeholder persisting through the fallback. -/
theorem c4_size_fallback_witness :
    get_property_size fragSizePrimary = SizeVal.num 120 ∧
    get_property_size fragSizeFallback = SizeVal.num 120 ∧
    get_property_size fragSizeAbsent = SizeVal.txt "-" := by
  refine ⟨(c4_size_fallback fragSizePrimary).1 (by decide), ?_, ?_⟩
  · exact (c4_size_fallback fragSizeFallback).2.1 ⟨"", "-"⟩ ⟨"", "120\xA0m²"⟩
      rfl rfl rfl rfl
  · exact ((c4_size_fallback fragSizeAbsent).2.2 ⟨"", "-"⟩ ⟨"", "-"⟩
      rfl rfl rfl rfl).1

/-- Claim C5 (counterexample): the claim says the location text of Zone,
colon, Porto comma Portugal yields Porto and that a comma-free text
yields the empty string. On the first text the code returns orto — the
7-character offset cuts into the name — and on a comma-free text the
slice runs from offset 7 to the index minus one returned by find, so it
keeps everything except the final character and is not empty. -/
theorem c5_counterexample :
    get_property_zone fragZonePorto = "orto" ∧ "orto" ≠ "Porto" ∧
    get_property_zone fragZoneNoComma = "orto Portuga" ∧ "orto Portuga" ≠ "" := by
  exact ⟨rfl, by decide, rfl, by decide⟩

/-- Claim C5 (amended): the zone extractor slices the location text from
offset 7 up to, not including, the first comma when one exists; when no
comma exists, find returns minus one and the slice keeps the text from
offset 7 up to, not including, the final character — generally a
nonempty string; the empty string arises only from the exception
branch. -/
theorem c5_amended_zone (f : Fragment) (e : Elem) (i : Nat)
    (he : (f.ps.filter (fun p => p.cls = "searchPropertyLocation")).get? 0 = some e) :
    (pyFind e.text ',' = (i : Int) →
      get_property_zone f = String.mk ((e.text.toList.take i).drop 7)) ∧
    (pyFind e.text ',' = -1 →
      get_property_zone f = String.mk ((e.text.toList.dropLast).drop 7)) := by
  have ha : listGetE (f.ps.filter (fun p => p.cls = "searchPropertyLocation")) 0 =
      .ok e := by
    unfold listGetE
    rw [he]
  constructor
  · intro hfind
    have hi := pyFind_lt e.text ',' i hfind
    unfold get_property_zone get_property_zone_body
    simp [ha, Except.bind, bind, pure, Except.pure, hfind,
      pySlice_seven_find e.text i hi]
  · intro hfind
    unfold get_property_zone get_property_zone_body
    simp [ha, Except.bind, bind, pure, Except.pure, hfind,
      pySlice_seven_neg_one e.text]

/-- Claim C5 amended witness: the theorem applied to a location text
whose label prefix really is 7 characters long, and to a comma-free
location text. -/
theorem c5_amended_witness :
    get_property_zone fragZoneFoz = "Foz" ∧
    get_property_zone fragZoneFozNoComma = "Foz do Dour" := by
  have h1 := (c5_amended_zone fragZoneFoz
    ⟨"searchPropertyLocation", "Local: Foz, Porto"⟩ 10 rfl).1 (by decide)
  have h2 := (c5_amended_zone fragZoneFozNoComma
    ⟨"searchPropertyLocation", "Local: Foz do Douro"⟩ 0 rfl).2 (by decide)
  exact ⟨h1.trans (by decide), h2.trans (by decide)⟩

/-- Claim C7: when the third span reads exactly Contacte Anunciante the
price extractor falls back to the fourth span — the result is then
determined by the fallback text alone — and when that fallback text
contains no digit characters the price is the absent sentinel None,
rather than an integer or an escaping error. -/
theorem c7_contact_fallback (f g : Fragment) (t : String) :
    (f.spans.get? 2 = some "Contacte Anunciante" → f.spans.get? 3 = some t →
      (∀ c ∈ t.toList, pyIsDigit c = false) → get_property_price f = none) ∧
    (f.spans.get? 2 = some "Contacte Anunciante" →
      g.spans.get? 2 = some "Contacte Anunciante" →
      f.spans.get? 3 = g.spans.get? 3 →
      get_property_price f = get_property_price g) := by
  constructor
  · intro h2 h3 hnd
    have ha : listGetE f.spans 2 = .ok "Contacte Anunciante" := by
      unfold listGetE
      rw [h2]
    have hb : listGetE f.spans 3 = .ok t := by
      unfold listGetE
      rw [h3]
    have hnd2 : ∀ c ∈ (truncOnce (truncOnce t)).toList, pyIsDigit c = false :=
      fun c hc => hnd c (mem_truncOnce t c (mem_truncOnce (truncOnce t) c hc))
    have hdig := priceDigitsE_nodigits ((truncOnce (truncOnce t)).toList) hnd2
    have hdig2 : priceDigitsE (truncOnce (truncOnce t)).data = Except.ok [] := hdig
    have hempty : pyIntE (renderDigits []) =
        Except.error "ValueError: invalid literal for int" := rfl
    unfold get_property_price get_property_price_body
    simp [ha, hb, hdig2, hempty, Except.bind, bind, pure, Except.pure]
  · intro h2 hg2 h33
    have ha : listGetE f.spans 2 = .ok "Contacte Anunciante" := by
      unfold listGetE
      rw [h2]
    have hag : listGetE g.spans 2 = .ok "Contacte Anunciante" := by
      unfold listGetE
      rw [hg2]
    have hb : listGetE f.spans 3 = listGetE g.spans 3 := by
      unfold listGetE
      rw [h33]
    unfold get_property_price get_property_price_body
    rw [ha, hag, hb]

/-- Claim C7 witness: the theorem applied to a fragment whose third span
is the contact placeholder and whose fourth span carries no digits. -/
theorem c7_contact_fallback_witness : get_property_price fragContact = none :=
  (c7_contact_fallback fragContact fragContact "Sob consulta").1 rfl rfl (by decide)

/-- Claim C8: every field extractor is total. For every listing fragment
— including one missing the expected elements — each of the eight
extractors returns a value; whenever the body inside the try block
fails, the except boundary converts the failure into the default or
absent sentinel of that field: the empty string for title, zone,
condition, description and link, None for price, and the empty-string
text value for size and date. The composite get_property_info always
assembles the record from exactly these eight total extractors. -/
theorem c8_extractors_total (cfg : ScraperConfig) (f : Fragment) :
    ((∃ v, get_property_title_body f = .ok v ∧ get_property_title f = v) ∨
      ((∃ e, get_property_title_body f = .error e) ∧ get_property_title f = "")) ∧
    ((∃ v, get_property_price_body f = .ok v ∧ get_property_price f = some v) ∨
      ((∃ e, get_property_price_body f = .error e) ∧ get_property_price f = none)) ∧
    ((∃ v, get_property_size_body f = .ok v ∧ get_property_size f = v) ∨
      ((∃ e, get_property_size_body f = .error e) ∧
        get_property_size f = SizeVal.txt "")) ∧
    ((∃ v, get_property_zone_body f = .ok v ∧ get_property_zone f = v) ∨
      ((∃ e, get_property_zone_body f = .error e) ∧ get_property_zone f = "")) ∧
    ((∃ v, get_property_condition_body f = .ok v ∧ get_property_condition f = v) ∨
      ((∃ e, get_property_condition_body f = .error e) ∧
        get_property_condition f = "")) ∧
    ((∃ v, get_property_date_body f = .ok v ∧ get_property_date f = v) ∨
      ((∃ e, get_property_date_body f = .error e) ∧
        get_property_date f = DateVal.txt "")) ∧
    ((∃ v, get_property_description_body f = .ok v ∧
        get_property_description f = v) ∨
      ((∃ e, get_property_description_body f = .error e) ∧
        get_property_description f = "")) ∧
    ((∃ v, get_property_link_body cfg f = .ok v ∧ get_property_link cfg f = v) ∨
      ((∃ e, get_property_link_body cfg f = .error e) ∧
        get_property_link cfg f = "")) ∧
    get_property_info cfg f =
      ⟨get_property_title f, get_property_price f, get_property_size f,
       get_property_zone f, get_property_condition f, get_property_date f,
       get_property_description f, get_property_link cfg f⟩ := by
  refine ⟨?_, ?_, ?_, ?_, ?_, ?_, ?_, ?_, rfl⟩
  · cases h : get_property_title_body f with
    | ok v => exact Or.inl ⟨v, rfl, by unfold get_property_title; rw [h]⟩
    | error e => exact Or.inr ⟨⟨e, rfl⟩, by unfold get_property_title; rw [h]⟩
  · cases h : get_property_price_body f with
    | ok v => exact Or.inl ⟨v, rfl, by unfold get_property_price; rw [h]⟩
    | error e => exact Or.inr ⟨⟨e, rfl⟩, by unfold get_property_price; rw [h]⟩
  · cases h : get_property_size_body f with
    | ok v => exact Or.inl ⟨v, rfl, by unfold get_property_size; rw [h]⟩
    | error e => exact Or.inr ⟨⟨e, rfl⟩, by unfold get_property_size; rw [h]⟩
  · cases h : get_property_zone_body f with
    | ok v => exact Or.inl ⟨v, rfl, by unfold get_property_zone; rw [h]⟩
    | error e => exact Or.inr ⟨⟨e, rfl⟩, by unfold get_property_zone; rw [h]⟩
  · cases h : get_property_condition_body f with
    | ok v => exact Or.inl ⟨v, rfl, by unfold get_property_condition; rw [h]⟩
    | error e => exact Or.inr ⟨⟨e, rfl⟩, by unfold get_property_condition; rw [h]⟩
  · cases h : get_property_date_body f with
    | ok v => exact Or.inl ⟨v, rfl, by unfold get_property_date; rw [h]⟩
    | error e => exact Or.inr ⟨⟨e, rfl⟩, by unfold get_property_date; rw [h]⟩
  · cases h : get_property_description_body f with
    | ok v => exact Or.inl ⟨v, rfl, by unfold get_property_description; rw [h]⟩
    | error e => exact Or.inr ⟨⟨e, rfl⟩, by unfold get_property_description; rw [h]⟩
  · cases h : get_property_link_body cfg f with
    | ok v => exact Or.inl ⟨v, rfl, by unfold get_property_link; rw [h]⟩
    | error e => exact Or.inr ⟨⟨e, rfl⟩, by unfold get_property_link; rw [h]⟩

end PortoScraper
